import Mathlib

/-!
# A verification development for the gpud diagnostic-agent core

Shallow embedding of the Go sources:

* `pkg/reboot/reboot.go` — the reboot runner (subprocess launch, stdout
  scanning, the "file already closed" scanner-error suppression, the
  root-privilege precondition, the delayed-reboot scheduling);
* `components/nvidia/query` (`ListNVIDIAPCIs`) — the PCI-listing stream scan;
* `components/os/component_output.go` — the OS collector `Output` value, its
  flattening to Health States (`States`), the state parsers
  (`ParseStateHost`, …, `ParseStatesToOutput`), and the JSON encoding;
* `components/accelerator/nvidia/query/sxid/dmesg.go` — the dmesg SXid log
  line classifier (`ExtractNVSwitchSXid`, `ParseDmesgLogLine`);
* `components/common` — `SuggestedActions.RequiresReboot` (modelled from the
  spec; only its test ships in the sources given).

Go machine integers are modelled as `Nat`/`Int` with explicit range bounds
(`2^63`, `2^64`) where Go's fixed width matters; Go's `(value, error)` returns
are modelled with `Except`/`Option`; Go string maps are association lists,
indexing `m[k]` returning the zero value `""` on a missing key.
-/

/-- A Go `error` value, modelled by its message string (`errors.New`,
`fmt.Errorf`). `none` models a `nil` error. -/
abbrev GoError := String

/-! ## Decimal text: the model of `fmt.Sprintf("%d", _)`, `strconv.ParseUint`,
`strconv.Atoi` -/

/-- Go's digit test (`'0' <= c && c <= '9'`, the class `\d`). -/
def isDigitCh (c : Char) : Bool := 48 ≤ c.toNat && c.toNat ≤ 57

/-- Reading a digit string back to a number, most significant digit first
(the accumulation loop inside `strconv`). -/
def digitsVal (cs : List Char) : Nat :=
  cs.foldl (fun a c => a * 10 + (c.toNat - 48)) 0

/-- The decimal digits of `n`, most significant first: the model of Go's
`%d` formatting of an unsigned value. -/
def natDigits (n : Nat) : List Char :=
  if _h : n < 10 then [Nat.digitChar n]
  else natDigits (n / 10) ++ [Nat.digitChar (n % 10)]
  decreasing_by exact Nat.div_lt_self (by omega) (by omega)

/-- `fmt.Sprintf("%d", n)` for an unsigned integer. -/
def natDec (n : Nat) : String := String.mk (natDigits n)

/-- `fmt.Sprintf("%d", i)` for a Go signed integer. -/
def intDec (i : Int) : String :=
  if i < 0 then String.mk ('-' :: natDigits (-i).toNat) else String.mk (natDigits i.toNat)

/-- `strconv.ParseUint(s, 10, 64)`: no sign, non-empty digits, range below
`2^64`; the numeric result, or the error. -/
def parseUint64 (s : String) : Except GoError Nat :=
  let cs := s.toList
  if cs.isEmpty then .error "invalid syntax"
  else if cs.all isDigitCh then
    let v := digitsVal cs
    if v < 18446744073709551616 then .ok v else .error "value out of range"
  else .error "invalid syntax"

/-- The digits-and-range phase of `strconv.Atoi` after the optional sign. -/
def atoiDigits (cs : List Char) (neg : Bool) : Except GoError Int :=
  if cs.isEmpty then .error "invalid syntax"
  else if cs.all isDigitCh then
    let v := digitsVal cs
    if neg then
      if v ≤ 9223372036854775808 then .ok (-(v : Int)) else .error "value out of range"
    else
      if v < 9223372036854775808 then .ok (v : Int) else .error "value out of range"
  else .error "invalid syntax"

/-- `strconv.Atoi(s)` (= `strconv.ParseInt(s, 10, 0)` with 64-bit `int`):
optional sign, non-empty digits, `int64` range. -/
def goAtoi (s : String) : Except GoError Int :=
  match s.toList with
  | [] => .error "invalid syntax"
  | c :: cs =>
    if c = '-' then atoiDigits cs true
    else if c = '+' then atoiDigits cs false
    else atoiDigits (c :: cs) false

/-! ### Round-trip lemmas for decimal text -/

theorem digitsVal_append_one (xs : List Char) (c : Char) :
    digitsVal (xs ++ [c]) = digitsVal xs * 10 + (c.toNat - 48) := by
  simp [digitsVal, List.foldl_append]

theorem digitChar_toNat_sub {d : Nat} (h : d < 10) :
    (Nat.digitChar d).toNat - 48 = d := by
  interval_cases d <;> rfl

theorem isDigitCh_digitChar {d : Nat} (h : d < 10) :
    isDigitCh (Nat.digitChar d) = true := by
  interval_cases d <;> rfl

theorem digitsVal_natDigits (n : Nat) : digitsVal (natDigits n) = n := by
  induction n using Nat.strong_induction_on with
  | _ n ih =>
    rw [natDigits]
    by_cases h : n < 10
    · simp only [h, dif_pos]
      simpa [digitsVal] using digitChar_toNat_sub h
    · simp only [h, dif_neg, not_false_iff]
      rw [digitsVal_append_one, ih (n / 10) (Nat.div_lt_self (by omega) (by omega)),
        digitChar_toNat_sub (Nat.mod_lt _ (by omega))]
      omega

theorem natDigits_all_digits (n : Nat) : (natDigits n).all isDigitCh = true := by
  induction n using Nat.strong_induction_on with
  | _ n ih =>
    rw [natDigits]
    by_cases h : n < 10
    · simpa [h] using isDigitCh_digitChar h
    · rw [dif_neg h, List.all_append, Bool.and_eq_true]
      exact ⟨ih (n / 10) (Nat.div_lt_self (by omega) (by omega)),
        by simpa using isDigitCh_digitChar (Nat.mod_lt _ (by omega))⟩

theorem natDigits_ne_nil (n : Nat) : natDigits n ≠ [] := by
  rw [natDigits]
  by_cases h : n < 10 <;> simp [h]

theorem parseUint64_natDec {n : Nat} (h : n < 2 ^ 64) :
    parseUint64 (natDec n) = .ok n := by
  have hne := natDigits_ne_nil n
  simp only [parseUint64, natDec, String.toList]
  rw [if_neg (by simpa [List.isEmpty_iff] using hne)]
  rw [if_pos (natDigits_all_digits n)]
  simp [digitsVal_natDigits, h]
  all_goals omega

theorem atoiDigits_natDigits_false {n : Nat} (h : n < 2 ^ 63) :
    atoiDigits (natDigits n) false = .ok (n : Int) := by
  have hne := natDigits_ne_nil n
  simp only [atoiDigits]
  rw [if_neg (by simpa [List.isEmpty_iff] using hne)]
  rw [if_pos (natDigits_all_digits n)]
  simp [digitsVal_natDigits, h]
  all_goals omega

theorem atoiDigits_natDigits_true {n : Nat} (h : n ≤ 2 ^ 63) :
    atoiDigits (natDigits n) true = .ok (-(n : Int)) := by
  have hne := natDigits_ne_nil n
  simp only [atoiDigits]
  rw [if_neg (by simpa [List.isEmpty_iff] using hne)]
  rw [if_pos (natDigits_all_digits n)]
  simp [digitsVal_natDigits, h]
  all_goals omega

theorem goAtoi_intDec {i : Int} (h1 : -2 ^ 63 ≤ i) (h2 : i < 2 ^ 63) :
    goAtoi (intDec i) = .ok i := by
  by_cases hneg : i < 0
  · have hstep : goAtoi (intDec i) = atoiDigits (natDigits (-i).toNat) true := by
      simp only [intDec, if_pos hneg]
      rfl
    rw [hstep, atoiDigits_natDigits_true (by omega)]
    congr 1
    omega
  · obtain ⟨c, cs, hc⟩ : ∃ c cs, natDigits i.toNat = c :: cs := by
      cases hnd : natDigits i.toNat with
      | nil => exact absurd hnd (natDigits_ne_nil _)
      | cons c cs => exact ⟨c, cs, rfl⟩
    have hdig : isDigitCh c = true := by
      have hall := natDigits_all_digits i.toNat
      rw [hc, List.all_cons, Bool.and_eq_true] at hall
      exact hall.1
    have hnotminus : c ≠ '-' := by
      intro hEq
      rw [hEq] at hdig
      simp [isDigitCh] at hdig
    have hnotplus : c ≠ '+' := by
      intro hEq
      rw [hEq] at hdig
      simp [isDigitCh] at hdig
    have hstep : goAtoi (intDec i) = atoiDigits (c :: cs) false := by
      simp only [intDec, if_neg hneg]
      show goAtoi (String.mk (natDigits i.toNat)) = _
      rw [hc]
      show (if c = '-' then atoiDigits cs true
        else if c = '+' then atoiDigits cs false
        else atoiDigits (c :: cs) false) = _
      rw [if_neg hnotminus, if_neg hnotplus]
    rw [hstep, ← hc, atoiDigits_natDigits_false (by omega)]
    congr 1
    omega

/-! ## `strings.Contains` -/

/-- Does `sub` occur starting at some position of `cs`?  Checked left to
right, mirroring the substring search of Go's `strings.Contains`. -/
def containsAt (sub : List Char) : List Char → Bool
  | [] => sub.isPrefixOf []
  | c :: cs => sub.isPrefixOf (c :: cs) || containsAt sub cs

/-- Go's `strings.Contains(s, sub)`. -/
def strContains (s sub : String) : Bool := containsAt sub.toList s.toList

/-! ## The Health State model (`components.State`)

The `components.State` type is used by `components/os/component_output.go`
with the fields `Name`, `Healthy`, `Reason`, `ExtraInfo`; `ExtraInfo` is a Go
`map[string]string`, modelled as an association list with lookup.  Go's
`m[k]` on a string map returns the zero value `""` when the key is absent. -/

structure State where
  Name : String
  Healthy : Bool
  Reason : String
  ExtraInfo : List (String × String)
deriving DecidableEq

/-- Go map indexing `m[k]` (zero value `""` on a missing key). -/
def lookupD (m : List (String × String)) (k : String) : String :=
  (m.lookup k).getD ""

/-! ## The OS collector output (`components/os/component_output.go`) -/

structure Host where
  ID : String
deriving DecidableEq

structure Kernel where
  Arch : String
  Version : String
deriving DecidableEq

structure Platform where
  Name : String
  Family : String
  Version : String
deriving DecidableEq

/-- `Seconds` and `BootTimeUnixSeconds` are Go `uint64` values, modelled as
`Nat` with the bound `< 2 ^ 64` stated where it matters. -/
structure Uptimes where
  Seconds : Nat
  SecondsHumanized : String
  BootTimeUnixSeconds : Nat
  BootTimeHumanized : String
deriving DecidableEq

/-- `ProcessCountZombieProcesses` is a Go `int` (64-bit), modelled as `Int`
with the `int64` bounds stated where they matter. -/
structure Output where
  Host : Host
  Kernel : Kernel
  Platform : Platform
  Uptimes : Uptimes
  ProcessCountZombieProcesses : Int
deriving DecidableEq

/-- The Go zero value of `Output` (`o := &Output{}`). -/
def zeroOutput : Output :=
  { Host := { ID := "" }
    Kernel := { Arch := "", Version := "" }
    Platform := { Name := "", Family := "", Version := "" }
    Uptimes := { Seconds := 0, SecondsHumanized := "", BootTimeUnixSeconds := 0,
                 BootTimeHumanized := "" }
    ProcessCountZombieProcesses := 0 }

def StateNameHost : String := "host"
def StateKeyHostID : String := "id"

def StateNameKernel : String := "kernel"
def StateKeyKernelArch : String := "arch"
def StateKeyKernelVersion : String := "version"

def StateNamePlatform : String := "platform"
def StateKeyPlatformName : String := "name"
def StateKeyPlatformFamily : String := "family"
def StateKeyPlatformVersion : String := "version"

def StateNameUptimes : String := "uptimes"
def StateKeyUptimesSeconds : String := "uptime_seconds"
def StateKeyUptimesHumanized : String := "uptime_humanized"
def StateKeyUptimesBootTimeUnixSeconds : String := "boot_time_unix_seconds"
def StateKeyUptimesBootTimeHumanized : String := "boot_time_humanized"

def StateNameProcessCountsByStatus : String := "process_counts_by_status"
def StateKeyProcessCountZombieProcesses : String := "process_count_zombie_processes"

/-- `ParseStateHost`: reads `m["id"]`; never returns an error. -/
def ParseStateHost (m : List (String × String)) : Except GoError Host :=
  .ok { ID := lookupD m StateKeyHostID }

/-- `ParseStateKernel`: reads `m["arch"]`, `m["version"]`; never errors. -/
def ParseStateKernel (m : List (String × String)) : Except GoError Kernel :=
  .ok { Arch := lookupD m StateKeyKernelArch, Version := lookupD m StateKeyKernelVersion }

/-- `ParseStatePlatform`: reads `m["name"]`, `m["family"]`, `m["version"]`;
never errors. -/
def ParseStatePlatform (m : List (String × String)) : Except GoError Platform :=
  .ok { Name := lookupD m StateKeyPlatformName,
        Family := lookupD m StateKeyPlatformFamily,
        Version := lookupD m StateKeyPlatformVersion }

/-- `ParseStateUptimes`: `strconv.ParseUint(m[key], 10, 64)` on the two
numeric keys (the indexing yields `""` when a key is absent, and
`ParseUint("")` is a syntax error), straight reads for the two humanized
strings. -/
def ParseStateUptimes (m : List (String × String)) : Except GoError Uptimes := do
  let secs ← parseUint64 (lookupD m StateKeyUptimesSeconds)
  let boot ← parseUint64 (lookupD m StateKeyUptimesBootTimeUnixSeconds)
  .ok { Seconds := secs,
        SecondsHumanized := lookupD m StateKeyUptimesHumanized,
        BootTimeUnixSeconds := boot,
        BootTimeHumanized := lookupD m StateKeyUptimesBootTimeHumanized }

/-- `ParseStateProcessCountZombieProcesses`: the `s, ok := m[key]` form —
an absent key returns `0` with no error; a present value goes through
`strconv.Atoi`. -/
def ParseStateProcessCountZombieProcesses (m : List (String × String)) :
    Except GoError Int :=
  match m.lookup StateKeyProcessCountZombieProcesses with
  | some s => goAtoi s
  | none => .ok 0

/-- The loop body of `ParseStatesToOutput`: a `switch` on `state.Name`,
each known arm parsing `state.ExtraInfo` into the matching field of the
accumulating `Output`, the `default` arm failing with
`"unknown state name: %s"`. -/
def parseStatesLoop (o : Output) : List State → Except GoError Output
  | [] => .ok o
  | s :: rest =>
    if s.Name = StateNameHost then
      match ParseStateHost s.ExtraInfo with
      | .error e => .error e
      | .ok h => parseStatesLoop { o with Host := h } rest
    else if s.Name = StateNameKernel then
      match ParseStateKernel s.ExtraInfo with
      | .error e => .error e
      | .ok k => parseStatesLoop { o with Kernel := k } rest
    else if s.Name = StateNamePlatform then
      match ParseStatePlatform s.ExtraInfo with
      | .error e => .error e
      | .ok p => parseStatesLoop { o with Platform := p } rest
    else if s.Name = StateNameUptimes then
      match ParseStateUptimes s.ExtraInfo with
      | .error e => .error e
      | .ok u => parseStatesLoop { o with Uptimes := u } rest
    else if s.Name = StateNameProcessCountsByStatus then
      match ParseStateProcessCountZombieProcesses s.ExtraInfo with
      | .error e => .error e
      | .ok z => parseStatesLoop { o with ProcessCountZombieProcesses := z } rest
    else
      .error ("unknown state name: " ++ s.Name)

/-- `ParseStatesToOutput(states...)`. -/
def ParseStatesToOutput (states : List State) : Except GoError Output :=
  parseStatesLoop zeroOutput states

/-- The `stateProcCounts` value built at the end of `States()`: constructed
`Healthy: true` with the zombie count in `ExtraInfo`, then flipped to
unhealthy with the "too many zombie processes" reason when the count reaches
`DefaultZombieProcessCountThreshold` (the `>=` comparison of the source). -/
def stateProcCounts (threshold : Int) (o : Output) : State :=
  if o.ProcessCountZombieProcesses ≥ threshold then
    { Name := StateNameProcessCountsByStatus
      Healthy := false
      Reason := "too many zombie processes: " ++ intDec o.ProcessCountZombieProcesses
        ++ " (threshold: " ++ intDec threshold ++ ")"
      ExtraInfo := [(StateKeyProcessCountZombieProcesses,
                     intDec o.ProcessCountZombieProcesses)] }
  else
    { Name := StateNameProcessCountsByStatus
      Healthy := true
      Reason := "zombie processes: " ++ intDec o.ProcessCountZombieProcesses
        ++ " (threshold: " ++ intDec threshold ++ ")"
      ExtraInfo := [(StateKeyProcessCountZombieProcesses,
                     intDec o.ProcessCountZombieProcesses)] }

/-- `(*Output).States()` — the Go method also returns an error, which is
always `nil`, so the model returns the list directly.  The source builds the
first five states, then appends `stateProcCounts`.  The
`DefaultZombieProcessCountThreshold` package global (initialized to 1000 and
re-derived from the host's file-descriptor limit in `init()`) is passed as
the `threshold` parameter. -/
def States (threshold : Int) (o : Output) : List State :=
  ([ { Name := StateNameHost
       Healthy := true
       Reason := "host id: " ++ o.Host.ID
       ExtraInfo := [(StateKeyHostID, o.Host.ID)] },
     { Name := StateNameKernel
       Healthy := true
       Reason := "arch: " ++ o.Kernel.Arch ++ ", version: " ++ o.Kernel.Version
       ExtraInfo := [(StateKeyKernelArch, o.Kernel.Arch),
                     (StateKeyKernelVersion, o.Kernel.Version)] },
     { Name := StateNamePlatform
       Healthy := true
       Reason := "name: " ++ o.Platform.Name ++ ", family: " ++ o.Platform.Family
         ++ ", version: " ++ o.Platform.Version
       ExtraInfo := [(StateKeyPlatformName, o.Platform.Name),
                     (StateKeyPlatformFamily, o.Platform.Family),
                     (StateKeyPlatformVersion, o.Platform.Version)] },
     { Name := StateNameUptimes
       Healthy := true
       Reason := "uptime: " ++ o.Uptimes.SecondsHumanized ++ ", boot time: "
         ++ o.Uptimes.BootTimeHumanized
       ExtraInfo := [(StateKeyUptimesSeconds, natDec o.Uptimes.Seconds),
                     (StateKeyUptimesHumanized, o.Uptimes.SecondsHumanized),
                     (StateKeyUptimesBootTimeUnixSeconds, natDec o.Uptimes.BootTimeUnixSeconds),
                     (StateKeyUptimesBootTimeHumanized, o.Uptimes.BootTimeHumanized)] } ]
    : List State).concat (stateProcCounts threshold o)

/-! ## The JSON encoding (`(*Output).JSON` / `ParseOutputJSON`)

`JSON()` is `json.Marshal(o)` and `ParseOutputJSON` is `json.Unmarshal`; the
byte encoding is modelled at the level of the JSON document tree: integers in
the source structs appear as JSON numbers (exact for the 64-bit ranges
involved), strings as JSON strings, nested structs as objects keyed by the
struct tags.  `json.Unmarshal` into a typed struct leaves a field at its zero
value when its key is absent, and errors on a type or range mismatch. -/

inductive Jval where
  | str : String → Jval
  | num : Int → Jval
  | obj : List (String × Jval) → Jval

/-- Field lookup in a decoded JSON object (first binding wins, as in
`json.Unmarshal`'s field matching). -/
def jLookup (k : String) : List (String × Jval) → Option Jval
  | [] => none
  | (k', v) :: rest => if k = k' then some v else jLookup k rest

/-- Decoding a JSON value into a Go `string` field. -/
def decodeJStr : Option Jval → Except GoError String
  | none => .ok ""
  | some (.str s) => .ok s
  | some _ => .error "cannot unmarshal into string"

/-- Decoding a JSON value into a Go `uint64` field: a negative or
out-of-range (`≥ 2^64`) number is an unmarshal error. -/
def decodeJUint64 : Option Jval → Except GoError Nat
  | none => .ok 0
  | some (.num (.ofNat m)) =>
    if m < 18446744073709551616 then .ok m else .error "cannot unmarshal into uint64"
  | some _ => .error "cannot unmarshal into uint64"

/-- Decoding a JSON value into a Go `int` (64-bit) field: a number outside
`[-2^63, 2^63)` is an unmarshal error. -/
def decodeJInt64 : Option Jval → Except GoError Int
  | none => .ok 0
  | some (.num (.ofNat m)) =>
    if m < 9223372036854775808 then .ok (.ofNat m) else .error "cannot unmarshal into int"
  | some (.num (.negSucc m)) =>
    if m < 9223372036854775808 then .ok (.negSucc m) else .error "cannot unmarshal into int"
  | some _ => .error "cannot unmarshal into int"

def encodeHost (h : Host) : Jval := .obj [("id", .str h.ID)]

def decodeHost : Option Jval → Except GoError Host
  | none => .ok { ID := "" }
  | some (.obj fs) =>
    match decodeJStr (jLookup "id" fs) with
    | .error e => .error e
    | .ok i => .ok { ID := i }
  | some _ => .error "cannot unmarshal into Host"

def encodeKernel (k : Kernel) : Jval :=
  .obj [("arch", .str k.Arch), ("version", .str k.Version)]

def decodeKernel : Option Jval → Except GoError Kernel
  | none => .ok { Arch := "", Version := "" }
  | some (.obj fs) =>
    match decodeJStr (jLookup "arch" fs) with
    | .error e => .error e
    | .ok a =>
      match decodeJStr (jLookup "version" fs) with
      | .error e => .error e
      | .ok v => .ok { Arch := a, Version := v }
  | some _ => .error "cannot unmarshal into Kernel"

def encodePlatform (p : Platform) : Jval :=
  .obj [("name", .str p.Name), ("family", .str p.Family), ("version", .str p.Version)]

def decodePlatform : Option Jval → Except GoError Platform
  | none => .ok { Name := "", Family := "", Version := "" }
  | some (.obj fs) =>
    match decodeJStr (jLookup "name" fs) with
    | .error e => .error e
    | .ok n =>
      match decodeJStr (jLookup "family" fs) with
      | .error e => .error e
      | .ok f =>
        match decodeJStr (jLookup "version" fs) with
        | .error e => .error e
        | .ok v => .ok { Name := n, Family := f, Version := v }
  | some _ => .error "cannot unmarshal into Platform"

def encodeUptimes (u : Uptimes) : Jval :=
  .obj [("seconds", .num (u.Seconds : Int)),
        ("seconds_humanized", .str u.SecondsHumanized),
        ("boot_time_unix_seconds", .num (u.BootTimeUnixSeconds : Int)),
        ("boot_time_humanized", .str u.BootTimeHumanized)]

def decodeUptimes : Option Jval → Except GoError Uptimes
  | none => .ok { Seconds := 0, SecondsHumanized := "", BootTimeUnixSeconds := 0,
                  BootTimeHumanized := "" }
  | some (.obj fs) =>
    match decodeJUint64 (jLookup "seconds" fs) with
    | .error e => .error e
    | .ok sec =>
      match decodeJStr (jLookup "seconds_humanized" fs) with
      | .error e => .error e
      | .ok sh =>
        match decodeJUint64 (jLookup "boot_time_unix_seconds" fs) with
        | .error e => .error e
        | .ok b =>
          match decodeJStr (jLookup "boot_time_humanized" fs) with
          | .error e => .error e
          | .ok bh =>
            .ok { Seconds := sec, SecondsHumanized := sh, BootTimeUnixSeconds := b,
                  BootTimeHumanized := bh }
  | some _ => .error "cannot unmarshal into Uptimes"

/-- `(*Output).JSON()` — `json.Marshal` of the `Output` struct, by tags. -/
def Output.JSON (o : Output) : Jval :=
  .obj [("host", encodeHost o.Host),
        ("kernel", encodeKernel o.Kernel),
        ("platform", encodePlatform o.Platform),
        ("uptimes", encodeUptimes o.Uptimes),
        ("process_count_zombie_processes", .num o.ProcessCountZombieProcesses)]

/-- `ParseOutputJSON` — `json.Unmarshal` into a fresh `Output`. -/
def ParseOutputJSON : Jval → Except GoError Output
  | .obj fs =>
    match decodeHost (jLookup "host" fs) with
    | .error e => .error e
    | .ok h =>
      match decodeKernel (jLookup "kernel" fs) with
      | .error e => .error e
      | .ok k =>
        match decodePlatform (jLookup "platform" fs) with
        | .error e => .error e
        | .ok p =>
          match decodeUptimes (jLookup "uptimes" fs) with
          | .error e => .error e
          | .ok u =>
            match decodeJInt64 (jLookup "process_count_zombie_processes" fs) with
            | .error e => .error e
            | .ok z =>
              .ok { Host := h, Kernel := k, Platform := p, Uptimes := u,
                    ProcessCountZombieProcesses := z }
  | _ => .error "cannot unmarshal into Output"

theorem decodeJUint64_num {n : Nat} (h : n < 2 ^ 64) :
    decodeJUint64 (some (.num (n : Int))) = .ok n := by
  have hcast : (n : Int) = Int.ofNat n := rfl
  rw [hcast]
  show (if n < 18446744073709551616 then (.ok n : Except GoError Nat) else .error _) = .ok n
  rw [if_pos (by omega)]

theorem decodeJInt64_num {i : Int} (h1 : -2 ^ 63 ≤ i) (h2 : i < 2 ^ 63) :
    decodeJInt64 (some (.num i)) = .ok i := by
  cases i with
  | ofNat m =>
    rw [Int.ofNat_eq_natCast] at h2
    show (if m < 9223372036854775808 then (.ok (Int.ofNat m) : Except GoError Int)
      else .error _) = .ok (Int.ofNat m)
    rw [if_pos (by omega)]
  | negSucc m =>
    rw [Int.negSucc_eq] at h1
    show (if m < 9223372036854775808 then (.ok (Int.negSucc m) : Except GoError Int)
      else .error _) = .ok (Int.negSucc m)
    rw [if_pos (by omega)]

theorem decodeUptimes_encode (u : Uptimes) (h1 : u.Seconds < 2 ^ 64)
    (h2 : u.BootTimeUnixSeconds < 2 ^ 64) :
    decodeUptimes (some (encodeUptimes u)) = .ok u := by
  obtain ⟨us, uh, ub, ubh⟩ := u
  simp only at h1 h2
  have e0 : decodeUptimes (some (encodeUptimes ⟨us, uh, ub, ubh⟩))
      = match decodeJUint64 (some (.num (us : Int))) with
        | .error e => .error e
        | .ok sec =>
          match decodeJUint64 (some (.num (ub : Int))) with
          | .error e => .error e
          | .ok b => .ok ⟨sec, uh, b, ubh⟩ := rfl
  rw [e0, decodeJUint64_num h1, decodeJUint64_num h2]

/-- C2: flattening an `Output` to Health States with `States()` and parsing
back with `ParseStatesToOutput` reproduces the value exactly, and the JSON
encode (`JSON()`) / decode (`ParseOutputJSON`) pair does too; the integer
fields (uptime seconds, boot-time seconds, zombie count) round-trip
losslessly through their decimal-text representation.  The bounds are the
Go widths of the fields (`uint64` for the uptime pair, `int` for the zombie
count); `threshold` is the package global `DefaultZombieProcessCountThreshold`
read by `States`. -/
theorem C2_output_roundtrip (o : Output) (threshold : Int)
    (h1 : o.Uptimes.Seconds < 2 ^ 64) (h2 : o.Uptimes.BootTimeUnixSeconds < 2 ^ 64)
    (h3 : -2 ^ 63 ≤ o.ProcessCountZombieProcesses)
    (h4 : o.ProcessCountZombieProcesses < 2 ^ 63) :
    ParseStatesToOutput (States threshold o) = .ok o
      ∧ ParseOutputJSON o.JSON = .ok o := by
  obtain ⟨⟨hid⟩, ⟨ka, kv⟩, ⟨pn, pf, pv⟩, ⟨us, uh, ub, ubh⟩, z⟩ := o
  simp only at h1 h2 h3 h4
  constructor
  · by_cases hz : z ≥ threshold <;>
      simp [ParseStatesToOutput, States, stateProcCounts, List.concat, parseStatesLoop, zeroOutput, hz,
        ParseStateHost, ParseStateKernel, ParseStatePlatform, ParseStateUptimes,
        ParseStateProcessCountZombieProcesses, lookupD, List.lookup,
        StateNameHost, StateNameKernel, StateNamePlatform, StateNameUptimes,
        StateNameProcessCountsByStatus, StateKeyHostID, StateKeyKernelArch,
        StateKeyKernelVersion, StateKeyPlatformName, StateKeyPlatformFamily,
        StateKeyPlatformVersion, StateKeyUptimesSeconds, StateKeyUptimesHumanized,
        StateKeyUptimesBootTimeUnixSeconds, StateKeyUptimesBootTimeHumanized,
        StateKeyProcessCountZombieProcesses,
        parseUint64_natDec h1, parseUint64_natDec h2, goAtoi_intDec h3 h4,
        bind, Except.bind, pure, Except.pure]
  · have e0 : ParseOutputJSON
        (Output.JSON ⟨⟨hid⟩, ⟨ka, kv⟩, ⟨pn, pf, pv⟩, ⟨us, uh, ub, ubh⟩, z⟩)
        = match decodeUptimes (some (encodeUptimes ⟨us, uh, ub, ubh⟩)) with
          | .error e => .error e
          | .ok u =>
            match decodeJInt64 (some (.num z)) with
            | .error e => .error e
            | .ok z' => .ok ⟨⟨hid⟩, ⟨ka, kv⟩, ⟨pn, pf, pv⟩, u, z'⟩ := rfl
    rw [e0, decodeUptimes_encode ⟨us, uh, ub, ubh⟩ h1 h2, decodeJInt64_num h3 h4]

/-- Witness for C2 at a concrete `Output`. -/
theorem C2_output_roundtrip_witness :
    ParseStatesToOutput (States 10 ⟨⟨"abc"⟩, ⟨"x86_64", "6.8"⟩, ⟨"ubuntu", "debian", "22.04"⟩,
        ⟨54321, "15 hours ago", 1700000000, "1 day ago"⟩, 3⟩)
      = .ok ⟨⟨"abc"⟩, ⟨"x86_64", "6.8"⟩, ⟨"ubuntu", "debian", "22.04"⟩,
        ⟨54321, "15 hours ago", 1700000000, "1 day ago"⟩, 3⟩
    ∧ ParseOutputJSON (Output.JSON ⟨⟨"abc"⟩, ⟨"x86_64", "6.8"⟩, ⟨"ubuntu", "debian", "22.04"⟩,
        ⟨54321, "15 hours ago", 1700000000, "1 day ago"⟩, 3⟩)
      = .ok ⟨⟨"abc"⟩, ⟨"x86_64", "6.8"⟩, ⟨"ubuntu", "debian", "22.04"⟩,
        ⟨54321, "15 hours ago", 1700000000, "1 day ago"⟩, 3⟩ :=
  C2_output_roundtrip _ 10 (by norm_num) (by norm_num) (by norm_num) (by norm_num)

/-! ## C10: unknown state names fail `ParseStatesToOutput` -/

/-- The five state names with a `switch` arm in `ParseStatesToOutput`. -/
def knownStateNames : List String :=
  [StateNameHost, StateNameKernel, StateNamePlatform, StateNameUptimes,
   StateNameProcessCountsByStatus]

theorem parseStatesLoop_unknown : ∀ (states : List State) (o : Output),
    (∃ s ∈ states, s.Name ∉ knownStateNames) →
    ∃ e, parseStatesLoop o states = .error e := by
  intro states
  induction states with
  | nil =>
    intro o h
    simp at h
  | cons s rest ih =>
    intro o h
    have hrest : s.Name ∈ knownStateNames → ∃ s' ∈ rest, s'.Name ∉ knownStateNames := by
      intro hk
      obtain ⟨s', hs', hname⟩ := h
      rcases List.mem_cons.mp hs' with rfl | hmem
      · exact absurd hk hname
      · exact ⟨s', hmem, hname⟩
    rw [parseStatesLoop]
    by_cases h1 : s.Name = StateNameHost
    · rw [if_pos h1]
      exact ih _ (hrest (by simp [knownStateNames, h1]))
    · rw [if_neg h1]
      by_cases h2 : s.Name = StateNameKernel
      · rw [if_pos h2]
        exact ih _ (hrest (by simp [knownStateNames, h2]))
      · rw [if_neg h2]
        by_cases h3 : s.Name = StateNamePlatform
        · rw [if_pos h3]
          exact ih _ (hrest (by simp [knownStateNames, h3]))
        · rw [if_neg h3]
          by_cases h4 : s.Name = StateNameUptimes
          · rw [if_pos h4]
            cases hp : ParseStateUptimes s.ExtraInfo with
            | error e => exact ⟨e, rfl⟩
            | ok u => exact ih _ (hrest (by simp [knownStateNames, h4]))
          · rw [if_neg h4]
            by_cases h5 : s.Name = StateNameProcessCountsByStatus
            · rw [if_pos h5]
              cases hp : ParseStateProcessCountZombieProcesses s.ExtraInfo with
              | error e => exact ⟨e, rfl⟩
              | ok z => exact ih _ (hrest (by simp [knownStateNames, h5]))
            · rw [if_neg h5]
              exact ⟨"unknown state name: " ++ s.Name, rfl⟩

/-- C10: `ParseStatesToOutput` returns an error (and no `Output`) whenever
some input state's `Name` is not one of the five known state names; it never
silently skips an unrecognized state. -/
theorem C10_unknown_state_name_fails (states : List State)
    (h : ∃ s ∈ states, s.Name ∉ knownStateNames) :
    ∃ e, ParseStatesToOutput states = .error e :=
  parseStatesLoop_unknown states zeroOutput h

/-- Witness for C10: a single state named "bogus" makes the parse fail. -/
theorem C10_unknown_state_name_fails_witness :
    ∃ e, ParseStatesToOutput [⟨"bogus", true, "", []⟩] = .error e :=
  C10_unknown_state_name_fails [⟨"bogus", true, "", []⟩]
    ⟨⟨"bogus", true, "", []⟩, by simp, by decide⟩

/-! ## C5: the zombie-process threshold verdict -/

/-- C5: the `process_counts_by_status` state produced by `States()` (its last
element) is unhealthy exactly when the zombie count is `≥` the threshold: a
count exactly at the threshold is unhealthy, a count strictly below is
healthy. -/
theorem C5_zombie_threshold (threshold : Int) (o : Output) :
    (States threshold o).getLast? = some (stateProcCounts threshold o)
      ∧ (stateProcCounts threshold o).Name = StateNameProcessCountsByStatus
      ∧ ((stateProcCounts threshold o).Healthy = false
          ↔ threshold ≤ o.ProcessCountZombieProcesses) := by
  refine ⟨by simp [States, List.concat_eq_append], ?_, ?_⟩
  · by_cases hz : o.ProcessCountZombieProcesses ≥ threshold <;>
      simp [stateProcCounts, hz]
  · by_cases hz : o.ProcessCountZombieProcesses ≥ threshold <;>
      simp [stateProcCounts, hz]

/-! ## C8: unhealthy states carry a non-empty reason -/

theorem eq_empty_of_length_zero {s : String} (h : s.length = 0) : s = "" := by
  cases s with
  | mk data =>
    cases data with
    | nil => rfl
    | cons c cs => simp [String.length] at h

theorem append_ne_empty_left (s t : String) (h : s ≠ "") : s ++ t ≠ "" := by
  intro he
  have hlen : (s ++ t).length = 0 := by rw [he]; rfl
  rw [String.length_append] at hlen
  exact h (eq_empty_of_length_zero (by omega))

/-- C8: every Health State produced by `States()` with `Healthy = false` has
a non-empty `Reason` (over all six emitted states, for every `Output` and
threshold). -/
theorem C8_unhealthy_reason (threshold : Int) (o : Output) :
    ∀ s ∈ States threshold o, s.Healthy = false → s.Reason ≠ "" := by
  intro s hs
  simp [States, List.concat_eq_append] at hs
  rcases hs with rfl | rfl | rfl | rfl | rfl | rfl
  · simp
  · simp
  · simp
  · simp
  · intro hfalse
    by_cases hz : o.ProcessCountZombieProcesses ≥ threshold
    · simp only [stateProcCounts, if_pos hz]
      exact append_ne_empty_left _ _ (append_ne_empty_left _ _
        (append_ne_empty_left _ _ (append_ne_empty_left _ _ (by decide))))
    · simp only [stateProcCounts, if_neg hz] at hfalse
      simp at hfalse

/-- Witness for C8: with threshold 0 and zombie count 0 the process-counts
state is unhealthy and its reason is non-empty. -/
theorem C8_unhealthy_reason_witness : (stateProcCounts 0 zeroOutput).Reason ≠ "" :=
  C8_unhealthy_reason 0 zeroOutput (stateProcCounts 0 zeroOutput)
    (by simp [States, List.concat_eq_append]) (by decide)

/-! ## C6: tolerance of missing `extra_info` keys -/

/-- C6 counterexample: `ParseStateUptimes` on a map with no keys at all
returns an error (`ParseUint("")` is an invalid-syntax error), so not every
state parser tolerates a missing schema key. -/
theorem C6_missing_key_counterexample :
    ParseStateUptimes [] = .error "invalid syntax" := rfl

/-- C6 (amended): `ParseStateHost`, `ParseStateKernel` and
`ParseStatePlatform` never fail (an absent key reads as the zero value `""`),
and `ParseStateProcessCountZombieProcesses` returns 0 without error when its
key is absent; but `ParseStateUptimes` returns an error when its
`uptime_seconds` key is absent, because the missing key reads as `""` and
`strconv.ParseUint("")` fails. -/
theorem C6_missing_key_tolerance (m : List (String × String)) :
    ParseStateHost m = .ok ⟨lookupD m StateKeyHostID⟩
    ∧ ParseStateKernel m
        = .ok ⟨lookupD m StateKeyKernelArch, lookupD m StateKeyKernelVersion⟩
    ∧ ParseStatePlatform m
        = .ok ⟨lookupD m StateKeyPlatformName, lookupD m StateKeyPlatformFamily,
               lookupD m StateKeyPlatformVersion⟩
    ∧ (m.lookup StateKeyProcessCountZombieProcesses = none →
        ParseStateProcessCountZombieProcesses m = .ok 0)
    ∧ (m.lookup StateKeyUptimesSeconds = none →
        ParseStateUptimes m = .error "invalid syntax") := by
  refine ⟨rfl, rfl, rfl, ?_, ?_⟩
  · intro h
    simp [ParseStateProcessCountZombieProcesses, h]
  · intro h
    simp [ParseStateUptimes, lookupD, h, parseUint64, bind, Except.bind]

/-- Witness for C6 (amended), at the empty map. -/
theorem C6_missing_key_tolerance_witness :
    ParseStateHost [] = .ok ⟨""⟩
    ∧ ParseStateKernel [] = .ok ⟨"", ""⟩
    ∧ ParseStatePlatform [] = .ok ⟨"", "", ""⟩
    ∧ ParseStateProcessCountZombieProcesses [] = .ok 0
    ∧ ParseStateUptimes [] = .error "invalid syntax" := by
  obtain ⟨a, b, c, d, e⟩ := C6_missing_key_tolerance []
  exact ⟨a, b, c, d rfl, e rfl⟩

/-! ## Repair actions (`components/common`)

Only the test of `SuggestedActions.RequiresReboot` is among the given
sources; the type and predicate are modelled from the spec. -/

/-- The repair-action tags exercised by the test
(`RepairActionTypeRebootSystem`, `RepairActionTypeRepairHardware`). -/
inductive RepairActionType where
  | rebootSystem
  | repairHardware
deriving DecidableEq

def RepairActionTypeRebootSystem : RepairActionType := .rebootSystem
def RepairActionTypeRepairHardware : RepairActionType := .repairHardware

/-- Modelled from the spec: `SuggestedActions` is a set of repair-action
tags attached to a detail record, order-preserving for display; the
structure stores only the tag list (`RepairActions`), no derived flags. -/
structure SuggestedActions where
  RepairActions : List RepairActionType
deriving DecidableEq

/-- Modelled from the spec: `RequiresReboot` is true iff the repair-action
set contains the reboot tag — computed from the set, never stored
redundantly. -/
def SuggestedActions.RequiresReboot (sa : SuggestedActions) : Bool :=
  sa.RepairActions.contains RepairActionTypeRebootSystem

/-- C7: `RequiresReboot()` is true iff the repair-action set contains the
reboot tag; in particular false for the empty set, true for {reboot}, true
for {reboot, repair-hardware}, false for {repair-hardware} (the four cases
of `TestSuggestedActions_RequiresReboot`).  It is a function of the set: the
structure has no stored flag. -/
theorem C7_requires_reboot :
    (∀ sa : SuggestedActions,
      sa.RequiresReboot = true ↔ RepairActionTypeRebootSystem ∈ sa.RepairActions)
    ∧ SuggestedActions.RequiresReboot ⟨[]⟩ = false
    ∧ SuggestedActions.RequiresReboot ⟨[RepairActionTypeRebootSystem]⟩ = true
    ∧ SuggestedActions.RequiresReboot
        ⟨[RepairActionTypeRebootSystem, RepairActionTypeRepairHardware]⟩ = true
    ∧ SuggestedActions.RequiresReboot ⟨[RepairActionTypeRepairHardware]⟩ = false := by
  refine ⟨?_, by decide, by decide, by decide, by decide⟩
  intro sa
  simp [SuggestedActions.RequiresReboot, List.contains, List.elem_iff]

/-! ## The SXid dmesg classifier
(`components/accelerator/nvidia/query/sxid/dmesg.go`)

`RegexNVSwitchSXidDmesg = SXid.*?: (\d+),` applied with
`FindStringSubmatch` (leftmost match, lazy gap, `.` not matching a newline,
greedy `\d+` capture), embedded as a direct matcher for this pattern. -/

/-- The tail of the pattern at one position: the literal `": "`, then the
greedy one-or-more digit run (the capture group), then the literal `","`. -/
def tryTail : List Char → Option (List Char)
  | ':' :: ' ' :: rest =>
    let ds := rest.takeWhile isDigitCh
    if ds.isEmpty then none
    else
      match rest.drop ds.length with
      | ',' :: _ => some ds
      | _ => none
  | _ => none

/-- The lazy `.*?` gap: try the tail at the current position first, then
extend the gap one character at a time (`.` does not match a newline). -/
def gapScan : List Char → Option (List Char)
  | [] => tryTail []
  | c :: rest =>
    match tryTail (c :: rest) with
    | some ds => some ds
    | none => if c = '\n' then none else gapScan rest

/-- The literal `SXid` at the current position, then the lazy gap. -/
def trySXidAt : List Char → Option (List Char)
  | 'S' :: 'X' :: 'i' :: 'd' :: rest => gapScan rest
  | _ => none

/-- Leftmost match: start positions are tried left to right
(`FindStringSubmatch` returns the first match). -/
def findSXidCode : List Char → Option (List Char)
  | [] => none
  | c :: rest =>
    match trySXidAt (c :: rest) with
    | some ds => some ds
    | none => findSXidCode rest

/-- `ExtractNVSwitchSXid`: the captured digits through `strconv.Atoi`
(`err == nil` guard), 0 when the pattern does not match or the digits
overflow `int`. -/
def ExtractNVSwitchSXid (line : String) : Int :=
  match findSXidCode line.toList with
  | some ds =>
    match goAtoi (String.mk ds) with
    | .ok v => v
    | .error _ => 0
  | none => 0

/-- Modelled from the spec: a catalog entry — name, human description,
severity class, suggested repair actions ("a lookup from code to detail
record"; the catalog data itself is outside the given sources). -/
structure Detail where
  Name : String
  Description : String
  Severity : String
  SuggestedActions : SuggestedActions
deriving DecidableEq

/-- `query_log.Item` as used by `ParseDmesgLogLine`: the raw line, the
(always nil here) matched bytes, and the timestamp (`metav1.Time`, modelled
as Unix seconds; `.UTC()` does not change the instant). -/
structure LogItem where
  Line : String
  Matched : Option String
  Time : Int
deriving DecidableEq

structure DmesgError where
  Detail : Option Detail
  LogItem : LogItem
deriving DecidableEq

/-- `ParseDmesgLogLine`.  `pkg_dmesg.ParseCtimeWithError` and the catalog
lookup `GetDetail` are outside the given sources and are parameters:
`parseCtime line = none` models a timestamp parse error (then `time.Now()`,
the `now` argument, is used); `getDetail` models the static catalog, `none`
a catalog miss (then `Detail` stays nil).  The Go function's only return is
`return de, nil`. -/
def ParseDmesgLogLine (parseCtime : String → Option Int)
    (getDetail : Int → Option Detail) (now : Int) (line : String) :
    DmesgError × Option GoError :=
  let timestamp := (parseCtime line).getD now
  let de : DmesgError :=
    { Detail := getDetail (ExtractNVSwitchSXid line)
      LogItem := { Line := line, Matched := none, Time := timestamp } }
  (de, none)

/-- C3: classification is total — for every input line (and any catalog,
timestamp parser and wall clock) the classifier returns a record and a nil
error; when the SXid pattern matches nowhere in the line, the extracted code
is 0, the detail is absent (the sentinel code 0 has no catalog entry, per
the spec), and when no native timestamp can be parsed from the line the
record's timestamp is the wall-clock observation time `now`. -/
theorem C3_classify_total (parseCtime : String → Option Int)
    (getDetail : Int → Option Detail) (now : Int) (line : String) :
    (ParseDmesgLogLine parseCtime getDetail now line).2 = none
    ∧ (findSXidCode line.toList = none →
        ExtractNVSwitchSXid line = 0
        ∧ (getDetail 0 = none →
            (ParseDmesgLogLine parseCtime getDetail now line).1.Detail = none)
        ∧ (parseCtime line = none →
            (ParseDmesgLogLine parseCtime getDetail now line).1.LogItem.Time = now)) := by
  refine ⟨rfl, fun hm => ?_⟩
  replace hm : findSXidCode line.data = none := hm
  refine ⟨?_, ?_, ?_⟩
  · simp [ExtractNVSwitchSXid, hm]
  · intro h0
    simp [ParseDmesgLogLine, ExtractNVSwitchSXid, hm, h0]
  · intro hct
    simp [ParseDmesgLogLine, hct]

/-- Witness for C3, on a line with no marker at all. -/
theorem C3_classify_total_witness :
    (ParseDmesgLogLine (fun _ => none) (fun _ => none) 42 "hello world").2 = none
    ∧ ExtractNVSwitchSXid "hello world" = 0
    ∧ (ParseDmesgLogLine (fun _ => none) (fun _ => none) 42 "hello world").1.Detail = none
    ∧ (ParseDmesgLogLine (fun _ => none) (fun _ => none) 42 "hello world").1.LogItem.Time
        = 42 := by
  obtain ⟨a, b⟩ := C3_classify_total (fun _ => none) (fun _ => none) 42 "hello world"
  obtain ⟨c, d, e⟩ := b (by decide)
  exact ⟨a, c, d rfl, e rfl⟩

/-- C4: the documented sample dmesg line yields fault code 20034. -/
theorem C4_sample_line :
    ExtractNVSwitchSXid
      "[131453.740743] nvidia-nvswitch0: SXid (PCI:0000:00:00.0): 20034, Fatal, Link 30 LTSSM Fault Up"
      = 20034 := by decide

/-! ## The reboot runner (`pkg/reboot/reboot.go`) and the PCI-listing scan
(`ListNVIDIAPCIs`) -/

def ErrNotRoot : GoError := "must be run as sudo/root"

/-- `Op` and its options. -/
structure Op where
  delaySeconds : Int
  useSystemctl : Bool

def WithDelaySeconds (d : Int) : Op → Op := fun op => { op with delaySeconds := d }

def WithSystemctl (b : Bool) : Op → Op := fun op => { op with useSystemctl := b }

/-- `applyOpts`: each option mutates the `Op` in order; never errors (the
source's error return is always nil). -/
def applyOpts (opts : List (Op → Op)) (op : Op) : Op :=
  opts.foldl (fun o f => f o) op

/-- What one subprocess run observes, in the order the code consults it:
the `process.New` result, the `Start(ctx)` outcome, the stdout lines
scanned, an error drained from `Wait()` inside the scan loop's `select`
(if one arrives), `scanner.Err()` after the loop, and the final
`Wait()`-versus-`ctx.Done()` race (only the PCI scan has the final
select). -/
structure ProcEnv where
  procNewErr : Option GoError
  startErr : Option GoError
  stdoutLines : List String
  earlyWaitErr : Option GoError
  scanErr : Option GoError
  finalWaitFiresFirst : Bool
  finalWaitErr : Option GoError

/-- The body of `rebootFunc` inside `Reboot`: start, scan stdout, drain
`Wait()` non-blockingly, then check `scanner.Err()`.  `capturedErr` is the
Go variable `err` still in scope from `proc, err := process.New(...)`; on
every path that reaches the scanner-error check it is nil, and the branch
for a scanner error without "file already closed" executes `return err` —
returning that captured value, not `serr`. -/
def rebootFunc (capturedErr : Option GoError) (env : ProcEnv) : Option GoError :=
  match env.startErr with
  | some e => some e
  | none =>
    match env.earlyWaitErr with
    | some e => some e
    | none =>
      match env.scanErr with
      | none => none
      | some serr =>
        if strContains serr "file already closed" then none
        else capturedErr

structure RebootOutcome where
  result : Option GoError
  procConstructed : Bool
  delayedScheduled : Bool
deriving DecidableEq

/-- `Reboot(ctx, opts...)`: apply the options, check the effective uid
(`ErrNotRoot` before anything else when not root), construct the process,
then either run `rebootFunc` immediately (zero delay) or schedule the
delayed goroutine and return nil. -/
def Reboot (env : ProcEnv) (euid : Int) (opts : List (Op → Op)) : RebootOutcome :=
  let options := applyOpts opts { delaySeconds := 0, useSystemctl := false }
  if euid = 0 then
    match env.procNewErr with
    | some e => { result := some e, procConstructed := false, delayedScheduled := false }
    | none =>
      if options.delaySeconds = 0 then
        { result := rebootFunc none env, procConstructed := true,
          delayedScheduled := false }
      else
        { result := none, procConstructed := true, delayedScheduled := true }
  else
    { result := some ErrNotRoot, procConstructed := false, delayedScheduled := false }

/-- The final `select` of `ListNVIDIAPCIs`: `Wait()` raced against
`ctx.Done()`. -/
def finishWait (env : ProcEnv) (lines : List String) : Except GoError (List String) :=
  if env.finalWaitFiresFirst then
    match env.finalWaitErr with
    | some e => .error e
    | none => .ok lines
  else .error "context canceled"

/-- The `lspci` lookup plus the subprocess run. -/
structure ListPCIEnv where
  lspciPath : Option String
  proc : ProcEnv

/-- `ListNVIDIAPCIs`: a missing `lspci` is "no data", not an error; the
scan collects the lines containing "NVIDIA"; the scanner-error branch
suppresses "file already closed" and propagates `serr` otherwise; then the
final `Wait()`/`ctx` select.  A Go nil slice and an empty slice are both
`[]` here. -/
def ListNVIDIAPCIs (env : ListPCIEnv) : Except GoError (List String) :=
  match env.lspciPath with
  | none => .ok []
  | some path =>
    if path = "" then .ok []
    else
      match env.proc.procNewErr with
      | some e => .error e
      | none =>
        match env.proc.startErr with
        | some e => .error e
        | none =>
          let lines := env.proc.stdoutLines.filter (fun l => strContains l "NVIDIA")
          match env.proc.earlyWaitErr with
          | some e => .error e
          | none =>
            match env.proc.scanErr with
            | some serr =>
              if strContains serr "file already closed" then finishWait env.proc lines
              else .error serr
            | none => finishWait env.proc lines

/-- C1: evaluation of both stream scans at a scanner error whose message
does not contain "file already closed" (and, for contrast, at one that
does).  `ListNVIDIAPCIs` propagates the error as the claim states; the
reboot runner returns nil — its `return err` returns the stale nil
`process.New` error instead of `serr` — so the propagation half of the
claim fails for the reboot runner, while the suppression half holds for
both. -/
theorem C1_scanner_error_paths :
    rebootFunc none ⟨none, none, [], none, some "read |0: input/output error", true, none⟩
      = none
    ∧ ListNVIDIAPCIs ⟨some "/usr/bin/lspci",
        ⟨none, none, [], none, some "read |0: input/output error", true, none⟩⟩
      = .error "read |0: input/output error"
    ∧ rebootFunc none ⟨none, none, [], none, some "read |0: file already closed", true, none⟩
      = none
    ∧ ListNVIDIAPCIs ⟨some "/usr/bin/lspci",
        ⟨none, none, [], none, some "read |0: file already closed", true, none⟩⟩
      = .ok [] := ⟨rfl, rfl, rfl, rfl⟩

/-- C9: a non-root caller gets `ErrNotRoot` immediately: no subprocess is
constructed or started, no delayed action is scheduled, whatever the
options and environment. -/
theorem C9_not_root (env : ProcEnv) (euid : Int) (opts : List (Op → Op))
    (h : euid ≠ 0) :
    Reboot env euid opts =
      { result := some ErrNotRoot, procConstructed := false,
        delayedScheduled := false } := by
  simp [Reboot, h]

/-- Witness for C9 at uid 1000. -/
theorem C9_not_root_witness :
    Reboot ⟨none, none, [], none, none, true, none⟩ 1000 [WithDelaySeconds 30] =
      { result := some ErrNotRoot, procConstructed := false,
        delayedScheduled := false } :=
  C9_not_root _ 1000 [WithDelaySeconds 30] (by decide)
